import Mathlib

/-
  Verification development for the Conversation Flow Engine of a
  WhatsApp chatbot management dashboard (Templates editor component).

  The definitions below are a shallow embedding of the TypeScript source:
  - data model: `AutoTemplate`, `FlowNode`, `FlowConnection`, `FlowState`,
    `ChatMessage`, `SimulationState`;
  - simulation: `startChatSimulation`, `sendUserMessage`;
  - synthesis (templates to graph): `convertTemplatesToFlow`;
  - flattening / reconciliation: `flattenFlowNodes`, `reconcileNode`
    (from `convertFlowNodesToTemplates`);
  - import: `convertCodeToFlow`, `importFlowCode`;
  - deletion: `removeNodeFromFlow`, `deleteFlowNode`.

  JavaScript strings are modelled through their character lists, so every
  operation is executable by kernel reduction.  `Date.now()`-based fresh
  identifiers are determinized by positional indices (they only need to be
  ids, no code inspects their shape), and wall-clock timestamps on chat
  messages are omitted.  `toLowerCase` is modelled by `Char.toLower`,
  which agrees with JavaScript on ASCII; the fixed vocabularies' non-ASCII
  characters are already lowercase.
-/

/-! ## JavaScript string primitives over character lists -/

/-- JS `String.prototype.toLowerCase` (ASCII case folding). -/
def lowerStr (s : String) : String := ⟨s.data.map Char.toLower⟩

/-- JS `hay.includes(needle)` (substring containment). -/
def strIncludes (hay needle : String) : Bool :=
  go needle.data hay.data
where
  go (n : List Char) : List Char → Bool
    | [] => n.isEmpty
    | c :: t => n.isPrefixOf (c :: t) || go n t

/-- JS `String.prototype.trim`: strip whitespace from both ends. -/
def jsTrim (s : String) : String :=
  ⟨((s.data.dropWhile Char.isWhitespace).reverse.dropWhile Char.isWhitespace).reverse⟩

/-- Character-list worker for global replacement: when `skip` is positive
we are still consuming characters of a previously matched pattern.
Models JS `s.replace(/pat/g, rep)` (left-to-right, non-overlapping). -/
def replaceAllGo (pat rep : List Char) : List Char → Nat → List Char
  | [], _ => []
  | _ :: rest, skip + 1 => replaceAllGo pat rep rest skip
  | c :: rest, 0 =>
    if pat.isPrefixOf (c :: rest) then
      rep ++ replaceAllGo pat rep rest (pat.length - 1)
    else
      c :: replaceAllGo pat rep rest 0

/-- JS `s.replace(/pat/g, rep)` with a constant pattern. -/
def replaceAllStr (s pat rep : String) : String :=
  ⟨replaceAllGo pat.data rep.data s.data 0⟩

/-- Character-list worker replacing only the first occurrence. -/
def replaceFirstGo (pat rep : List Char) : List Char → List Char
  | [] => []
  | c :: rest =>
    if pat.isPrefixOf (c :: rest) then rep ++ List.drop (pat.length - 1) rest
    else c :: replaceFirstGo pat rep rest

/-- JS `s.replace(pat, rep)` with a *string* pattern (first occurrence only). -/
def replaceFirstStr (s pat rep : String) : String :=
  ⟨replaceFirstGo pat.data rep.data s.data⟩

/-- JS `s.startsWith(pat)`. -/
def jsStartsWith (s pat : String) : Bool := pat.data.isPrefixOf s.data

/-- The segment after the last `sep`; equals the last element of JS
`s.split(sep)` for a single-character separator. -/
def lastSplitSeg (sep : Char) (s : String) : String :=
  ⟨(s.data.reverse.takeWhile (fun c => c != sep)).reverse⟩

/-- Decimal value of an all-digit character list. -/
def digitsVal (l : List Char) : Nat :=
  l.foldl (fun a c => a * 10 + (c.toNat - 48)) 0

/-- JS `!isNaN(Number(s)) && Number(s) > 0`, modelled on the digit-string
ids the editor generates (JS `Number` also accepts signs, decimals and
whitespace, which never occur in node ids). -/
def numericIdPos (s : String) : Bool :=
  !s.data.isEmpty && s.data.all Char.isDigit && digitsVal s.data > 0

/-! ## Data model (`interface` declarations of the source) -/

/-- `interface AutoTemplate { id; trigger: string[]; response; active }`. -/
structure AutoTemplate where
  id : String
  trigger : List String
  response : String
  active : Bool
deriving DecidableEq, Repr

/-- The `type` union of `FlowNode`. -/
inductive NodeType where
  | start
  | message
  | condition
  | options
  | human
  | end'
deriving DecidableEq, Repr

/-- Editor coordinates (layout only). -/
structure Pos where
  x : Int
  y : Int
deriving DecidableEq, Repr

/-- An entry of the `conditions` payload field. -/
structure FlowCondition where
  field : String
  operator : String
  value : String
deriving DecidableEq, Repr

/-- An entry of the `options` payload field. -/
structure FlowOption where
  id : String
  label : String
  value : String
deriving DecidableEq, Repr

/-- The `data` payload of a `FlowNode`; optional fields are `Option`s. -/
structure NodeData where
  title : String
  description : Option String := none
  triggers : Option (List String) := none
  response : Option String := none
  conditions : Option (List FlowCondition) := none
  options : Option (List FlowOption) := none
  active : Option Bool := none
deriving DecidableEq, Repr

/-- `interface FlowNode`. -/
structure FlowNode where
  id : String
  type : NodeType
  position : Pos
  data : NodeData
  connections : List String
deriving DecidableEq, Repr

/-- `interface FlowConnection`. -/
structure FlowConnection where
  id : String
  source : String
  target : String
  sourceHandle : Option String := none
  targetHandle : Option String := none
deriving DecidableEq, Repr

/-- The graph-relevant part of `interface FlowState` (zoom/pan/drag are
pure view state with no bearing on the claims). -/
structure FlowState where
  nodes : List FlowNode
  connections : List FlowConnection
  selectedNode : Option String := none
deriving DecidableEq, Repr

/-- The `type` union of `ChatMessage`. -/
inductive MsgType where
  | user
  | bot
deriving DecidableEq, Repr

/-- `interface ChatMessage`, minus the `Date.now()` id and timestamp. -/
structure ChatMessage where
  type : MsgType
  content : String
  nodeId : Option String := none
deriving DecidableEq, Repr

/-- `interface SimulationState`. -/
structure SimulationState where
  isActive : Bool
  currentNodeId : Option String
  chatHistory : List ChatMessage
  awaitingInput : Bool
deriving DecidableEq, Repr

/-! ## Dialogue simulation engine (`startChatSimulation`, `sendUserMessage`) -/

/-- The fixed greeting emitted by `startChatSimulation`. -/
def simGreeting : String :=
  "👋 Olá! Bem-vindo ao nosso atendimento. Como posso ajudá-lo?"

/-- The fixed fallback reply of `sendUserMessage` when no template matches. -/
def fallbackReply : String :=
  "🤔 Desculpe, não entendi sua mensagem. Você pode tentar novamente ou digitar \"menu\" para ver as opções disponíveis."

/-- `startChatSimulation`: requires a `start` node (otherwise the code
alerts and leaves the simulation untouched, modelled as `none`), then
activates the simulation with the fixed greeting in the transcript. -/
def startChatSimulation (nodes : List FlowNode) : Option SimulationState :=
  match nodes.find? (fun n => n.type == NodeType.start) with
  | none => none
  | some startNode =>
    some { isActive := true
           currentNodeId := some startNode.id
           chatHistory := [{ type := MsgType.bot, content := simGreeting }]
           awaitingInput := true }

/-- The matching predicate of `sendUserMessage`:
`template.active && template.trigger.some(trigger =>
  userInput.toLowerCase().includes(trigger.toLowerCase()))`. -/
def matchesTemplate (userInput : String) (t : AutoTemplate) : Bool :=
  t.active && t.trigger.any (fun trig => strIncludes (lowerStr userInput) (lowerStr trig))

/-- `sendUserMessage`: guard `if (!userInput.trim() || !simulationState.isActive) return`,
then append the user entry, then (after the typing delay, collapsed here)
either the matched template's reply with `{name}` substituted, or the
fixed fallback entry.  The final state after the delayed update. -/
def sendUserMessage (templates : List AutoTemplate) (userInput : String)
    (st : SimulationState) : SimulationState :=
  if jsTrim userInput == "" || !st.isActive then st
  else
    let userMessage : ChatMessage := { type := MsgType.user, content := jsTrim userInput }
    let st1 : SimulationState :=
      { st with chatHistory := st.chatHistory ++ [userMessage], awaitingInput := false }
    match templates.find? (matchesTemplate userInput) with
    | some t =>
      { st1 with
        chatHistory := st1.chatHistory ++
          [{ type := MsgType.bot
             content := replaceAllStr t.response "{name}" "Usuário"
             nodeId := some t.id }]
        awaitingInput := true
        currentNodeId := some ("template-" ++ t.id) }
    | none =>
      { st1 with
        chatHistory := st1.chatHistory ++ [{ type := MsgType.bot, content := fallbackReply }]
        awaitingInput := true }

/-! ## Template→graph synthesis (`convertTemplatesToFlow`) -/

/-- The fixed greeting vocabulary used to pick the welcome template. -/
def greetingWords : List String :=
  ["oi", "olá", "menu", "dia", "tarde", "noite", "bom dia", "boa tarde", "boa noite"]

/-- The digit triggers marking menu options. -/
def digitStrs : List String := ["1", "2", "3", "4", "5"]

/-- A template whose trigger set meets the greeting vocabulary
(case-insensitively). -/
def isGreetingTpl (t : AutoTemplate) : Bool :=
  t.trigger.any (fun s => greetingWords.contains (lowerStr s))

/-- A template with a digit trigger (exact string membership, as in the
source: no `toLowerCase` on this check). -/
def hasDigitTrigger (t : AutoTemplate) : Bool :=
  t.trigger.any (fun s => digitStrs.contains s)

/-- The menu-option classification of `convertTemplatesToFlow`. -/
def isMenuTpl (t : AutoTemplate) : Bool :=
  hasDigitTrigger t && !(isGreetingTpl t)

/-- `parseInt(trigger.find(digit) || '0')`: the numeric sort key. -/
def menuKey (t : AutoTemplate) : Nat :=
  match t.trigger.find? (fun s => digitStrs.contains s) with
  | some s => digitsVal s.data
  | none => 0

/-- The comparator `(a, b) => aNum - bNum` as an ordering relation. -/
def menuLe (a b : AutoTemplate) : Prop := menuKey a ≤ menuKey b

instance : DecidableRel menuLe := fun a b => Nat.decLe (menuKey a) (menuKey b)

instance : IsTotal AutoTemplate menuLe := ⟨fun a b => Nat.le_total (menuKey a) (menuKey b)⟩

instance : IsTrans AutoTemplate menuLe := ⟨fun _ _ _ => Nat.le_trans⟩

/-- The menu options in ascending numeric order.  JS `Array.sort` with a
consistent comparator is a stable ascending sort, which a stable
insertion sort reproduces exactly. -/
def sortedMenuOptions (ts : List AutoTemplate) : List AutoTemplate :=
  List.insertionSort menuLe (ts.filter isMenuTpl)

/-- The fixed-token detection of "special" (programmatically-fired)
templates: a trigger containing `CIDADE_`, `_DISPONIVEL` or
`_NAO_DISPONIVEL` as a substring. -/
def isSpecialTpl (t : AutoTemplate) : Bool :=
  t.trigger.any (fun s =>
    strIncludes s "CIDADE_" || strIncludes s "_DISPONIVEL" || strIncludes s "_NAO_DISPONIVEL")

/-- `templates.find(...)` for the welcome template. -/
def welcomeTplOf (ts : List AutoTemplate) : Option AutoTemplate :=
  ts.find? isGreetingTpl

/-- `menuOptions.find(...)` for the "buy a ticket" option. -/
def comprarOptionOf (ts : List AutoTemplate) : Option AutoTemplate :=
  (sortedMenuOptions ts).find? (fun opt =>
    opt.trigger.any (fun s => (["comprar", "passagem", "1"] : List String).contains (lowerStr s)))

/-- `menuOptions.find(...)` for the human-handoff option. -/
def humanTplOf (ts : List AutoTemplate) : Option AutoTemplate :=
  (sortedMenuOptions ts).find? (fun t =>
    t.trigger.any (fun s => (["3", "operador", "atendente", "humano", "pessoa"] : List String).contains (lowerStr s)))

/-- The descriptive title given to a menu-option node. -/
def optionTitle (t : AutoTemplate) : String :=
  let num := (t.trigger.find? (fun s => digitStrs.contains s)).getD "undefined"
  if t.trigger.any (fun s => (["comprar", "passagem", "bilhete"] : List String).contains (lowerStr s)) then
    "Opção " ++ num ++ " - Comprar Passagem"
  else if t.trigger.any (fun s => (["horários", "horario", "hora"] : List String).contains (lowerStr s)) then
    "Opção " ++ num ++ " - Ver Horários"
  else if t.trigger.any (fun s => (["operador", "atendente", "humano", "pessoa"] : List String).contains (lowerStr s)) then
    "Opção " ++ num ++ " - Falar com Operador"
  else
    "Opção " ++ num

/-- The title given to a special (condition) node. -/
def specialTitle (t : AutoTemplate) : String :=
  if t.trigger.any (fun s => strIncludes s "CIDADE_DISPONIVEL") then "Cidade Disponível"
  else if t.trigger.any (fun s => strIncludes s "CIDADE_NAO_DISPONIVEL") then "Cidade Não Disponível"
  else "Template Especial"

/-- Node id of the node synthesized from a template. -/
def tplNodeId (t : AutoTemplate) : String := "template-" ++ t.id

/-- The `start-1` node (its `connections` are filled by the welcome step). -/
def mkStartNode (conns : List String) : FlowNode :=
  { id := "start-1", type := NodeType.start, position := ⟨50, 50⟩
    data := { title := "Início", description := some "Usuário inicia conversa" }
    connections := conns }

/-- The welcome node (its `connections` are filled by the menu step). -/
def mkWelcomeNode (t : AutoTemplate) (conns : List String) : FlowNode :=
  { id := tplNodeId t, type := NodeType.message, position := ⟨50, 150⟩
    data := { title := "Boas-vindas", triggers := some t.trigger
              response := some t.response, active := some t.active }
    connections := conns }

/-- The node synthesized from the `i`-th sorted menu option. -/
def mkOptionNode (i : Nat) (t : AutoTemplate) : FlowNode :=
  { id := tplNodeId t, type := NodeType.message
    position := ⟨300 + Int.ofNat (i % 3) * 200, 100 + Int.ofNat (i / 3) * 120⟩
    data := { title := optionTitle t, triggers := some t.trigger
              response := some t.response, active := some t.active }
    connections := [] }

/-- The condition node synthesized from the `i`-th special template. -/
def mkSpecialNode (i : Nat) (t : AutoTemplate) : FlowNode :=
  { id := tplNodeId t, type := NodeType.condition
    position := ⟨50 + Int.ofNat i * 250, 400⟩
    data := { title := specialTitle t, triggers := some t.trigger
              response := some t.response, active := some t.active }
    connections := [] }

/-- A connection as pushed by the synthesizer: id `source-target`. -/
def mkConn (src tgt : String) : FlowConnection :=
  { id := src ++ "-" ++ tgt, source := src, target := tgt }

/-- The start node and (when present) the welcome node, with the
`push`-mutations of their `connections` applied (the array holds the
fully mutated records once the creation loops finish). -/
def headNodes (ts : List AutoTemplate) : List FlowNode :=
  match welcomeTplOf ts with
  | some w =>
    [mkStartNode [tplNodeId w], mkWelcomeNode w ((sortedMenuOptions ts).map tplNodeId)]
  | none => [mkStartNode []]

/-- The menu-option nodes, in sorted template order. -/
def menuNodes (ts : List AutoTemplate) : List FlowNode :=
  (sortedMenuOptions ts).mapIdx mkOptionNode

/-- The special (condition) nodes, in template-list order. -/
def specialNodes (ts : List AutoTemplate) : List FlowNode :=
  (ts.filter isSpecialTpl).mapIdx mkSpecialNode

/-- Nodes after the start/welcome/menu-option/special creation steps. -/
def baseNodes (ts : List AutoTemplate) : List FlowNode :=
  headNodes ts ++ menuNodes ts ++ specialNodes ts

/-- Connections pushed by the start/welcome and menu steps.  When no
welcome node exists the menu loop pushes no connection at all (the
`if (welcomeNode)` has no `else` branch). -/
def baseConns (ts : List AutoTemplate) : List FlowConnection :=
  let menu := sortedMenuOptions ts
  match welcomeTplOf ts with
  | some w => mkConn "start-1" (tplNodeId w) :: menu.map (fun m => mkConn (tplNodeId w) (tplNodeId m))
  | none => []

/-- Apply `g` to the first element satisfying `p` (models
`array.find(...)` followed by an in-place mutation, and
`findIndex` followed by an indexed assignment). -/
def updateFirst (p : α → Bool) (g : α → α) : List α → List α
  | [] => []
  | x :: xs => if p x then g x :: xs else x :: updateFirst p g xs

/-- `node.connections.push(cid)`. -/
def pushConn (cid : String) (n : FlowNode) : FlowNode :=
  { n with connections := n.connections ++ [cid] }

/-- The per-special mutation of the "comprar" node's `connections`. -/
def wireSpecialNodes (comprarId : String) (specialIds : List String)
    (ns : List FlowNode) : List FlowNode :=
  specialIds.foldl (fun acc sid => updateFirst (fun n => n.id == comprarId) (pushConn sid) acc) ns

/-- The connections pushed by the special step. -/
def specialConns (comprarId : String) (specialIds : List String) : List FlowConnection :=
  specialIds.map (fun sid => mkConn comprarId sid)

/-- The human-handoff retype: type becomes `human`, title and position
are overwritten; triggers/response/active stay. -/
def retypeHuman (n : FlowNode) : FlowNode :=
  { n with type := NodeType.human
           data := { n.data with title := "Atendimento Humano" }
           position := ⟨50, 300⟩ }

/-- `findIndex` on `template-${humanTpl.id}` followed by the retype
(no-op when the template or the node is absent). -/
def applyHumanRetype (ts : List AutoTemplate) (ns : List FlowNode) : List FlowNode :=
  match humanTplOf ts with
  | none => ns
  | some h => updateFirst (fun n => n.id == tplNodeId h) retypeHuman ns

/-- The `end-1` node. -/
def mkEndNode : FlowNode :=
  { id := "end-1", type := NodeType.end', position := ⟨650, 250⟩
    data := { title := "Fim", description := some "Conversa finalizada" }
    connections := [] }

/-- The leaf test of the final pass: zero outgoing connections, not the
start or end node, not a human node. -/
def isLeafNode (n : FlowNode) : Bool :=
  n.connections.isEmpty && n.id != "end-1" && n.id != "start-1" && !(n.type == NodeType.human)

/-- The final pass's node mutations: every leaf gets `end-1` appended. -/
def connectLeavesNodes (ns : List FlowNode) : List FlowNode :=
  ns.map (fun n => if isLeafNode n then pushConn "end-1" n else n)

/-- The connections pushed by the final pass, in node order. -/
def leafConns (ns : List FlowNode) : List FlowConnection :=
  ns.filterMap (fun n => if isLeafNode n then some (mkConn n.id "end-1") else none)

/-- `convertTemplatesToFlow`: synthesis of the graph from a template
list, stage by stage in source order. -/
def convertTemplatesToFlow (ts : List AutoTemplate) :
    List FlowNode × List FlowConnection :=
  let specials := ts.filter isSpecialTpl
  let ns1 := baseNodes ts
  let cs1 := baseConns ts
  let ns2 := match comprarOptionOf ts with
    | some c => wireSpecialNodes (tplNodeId c) (specials.map tplNodeId) ns1
    | none => ns1
  let cs2 := match comprarOptionOf ts with
    | some c => cs1 ++ specialConns (tplNodeId c) (specials.map tplNodeId)
    | none => cs1
  let ns3 := applyHumanRetype ts ns2
  let nsE := ns3 ++ [mkEndNode]
  (connectLeavesNodes nsE, cs2 ++ leafConns nsE)

/-! ## Flattening and reconciliation (`convertFlowNodesToTemplates`) -/

/-- JS `opt || d` for an optional string field: `none` and `""` are falsy. -/
def jsStrOrElse (o : Option String) (d : String) : String :=
  match o with
  | some s => if s == "" then d else s
  | none => d

/-- JS `opt || d` for an optional array field: arrays (even empty) are
truthy, only a missing field falls back. -/
def jsArrOr (o : Option (List String)) (d : List String) : List String :=
  match o with
  | some l => l
  | none => d

/-- JS `node.data.active !== false`. -/
def nodeActiveFlag (o : Option Bool) : Bool := !(o == some false)

/-- `node.type === 'message' || node.type === 'human'`. -/
def isMHNode (n : FlowNode) : Bool :=
  n.type == NodeType.message || n.type == NodeType.human

/-- The create-path template built from a node (the `temp-${Date.now()}`
id is determinized by the node's position among the created templates;
no code inspects its shape and on success the store-assigned id
replaces it). -/
def nodeTemplateOf (i : Nat) (n : FlowNode) : AutoTemplate :=
  { id := "temp-" ++ toString i
    trigger := jsArrOr n.data.triggers ["default"]
    response := jsStrOrElse n.data.response (jsStrOrElse (some n.data.title) "Resposta padrão")
    active := nodeActiveFlag n.data.active }

/-- The pure flattening performed by `convertFlowNodesToTemplates` on a
project with no persisted templates (every `message`/`human` node takes
the create path; all other node kinds are skipped). -/
def flattenFlowNodes (nodes : List FlowNode) : List AutoTemplate :=
  (nodes.filter isMHNode).mapIdx nodeTemplateOf

/-- `node.id.replace('template-', '')` (JS string-pattern replace:
first occurrence only). -/
def nodeIdStripped (nodeId : String) : String :=
  replaceFirstStr nodeId "template-" ""

/-- The identity resolution of `convertFlowNodesToTemplates`: the first
persisted template whose id equals the stripped node id or whose
trigger set meets the node's triggers (exact string membership). -/
def findExistingTemplate (existing : List AutoTemplate) (n : FlowNode) : Option AutoTemplate :=
  existing.find? (fun t =>
    t.id == nodeIdStripped n.id ||
    (match n.data.triggers with
     | some trigs => trigs.any (fun tr => t.trigger.contains tr)
     | none => false))

/-- A Template Store request issued during reconciliation. -/
inductive StoreOp where
  | update (t : AutoTemplate)
  | create (t : AutoTemplate)
deriving DecidableEq, Repr

/-- The store operation `convertFlowNodesToTemplates` issues for one
node (`none` for node kinds other than `message`/`human`): resolved
nodes update the resolved template in place, unresolved ones create. -/
def reconcileNode (existing : List AutoTemplate) (i : Nat) (n : FlowNode) : Option StoreOp :=
  if isMHNode n then
    match findExistingTemplate existing n with
    | some t =>
      some (StoreOp.update
        { t with trigger := jsArrOr n.data.triggers t.trigger
                 response := jsStrOrElse n.data.response (jsStrOrElse (some n.data.title) t.response)
                 active := nodeActiveFlag n.data.active })
    | none => some (StoreOp.create (nodeTemplateOf i n))
  else none

/-! ## Flow serialization import (`convertCodeToFlow`, `importFlowCode`) -/

/-- A parsed JSON document (the output of `JSON.parse`). -/
inductive Json where
  | null
  | bool (b : Bool)
  | num (n : Int)
  | str (s : String)
  | arr (elems : List Json)
  | obj (fields : List (String × Json))

/-- JS member access `doc.k` on a parsed document (`none` = `undefined`). -/
def Json.getField : Json → String → Option Json
  | Json.obj fields, k => (fields.find? (fun p => p.1 == k)).map Prod.snd
  | _, _ => none

/-- JS truthiness of a possibly-undefined JSON value. -/
def jsTruthy : Option Json → Bool
  | none => false
  | some Json.null => false
  | some (Json.bool b) => b
  | some (Json.num n) => !(n == 0)
  | some (Json.str s) => !(s == "")
  | some (Json.arr _) => true
  | some (Json.obj _) => true

/-- `Array.isArray` with the array's elements. -/
def asArr : Option Json → Option (List Json)
  | some (Json.arr l) => some l
  | _ => none

/-- A string-valued JSON field; values of another runtime type are
outside the TS interface and are modelled as absent. -/
def jsonStr? : Option Json → Option String
  | some (Json.str s) => some s
  | _ => none

/-- An integer-valued JSON field (layout coordinates). -/
def jsonInt? : Option Json → Option Int
  | some (Json.num n) => some n
  | _ => none

/-- A string-array-valued JSON field, keeping its string elements. -/
def jsonStrList? : Option Json → Option (List String)
  | some (Json.arr xs) => some (xs.filterMap (fun x => match x with
      | Json.str s => some s
      | _ => none))
  | _ => none

/-- `node.type || 'message'` decoded into the `FlowNode` type union. -/
def decodeNodeType (o : Option Json) : NodeType :=
  match jsonStr? o with
  | some "start" => NodeType.start
  | some "message" => NodeType.message
  | some "condition" => NodeType.condition
  | some "options" => NodeType.options
  | some "human" => NodeType.human
  | some "end" => NodeType.end'
  | _ => NodeType.message

/-- `node.position || { x: 0, y: 0 }`. -/
def decodePos (o : Option Json) : Pos :=
  match o with
  | some (Json.obj fs) =>
    { x := (jsonInt? ((fs.find? (fun p => p.1 == "x")).map Prod.snd)).getD 0
      y := (jsonInt? ((fs.find? (fun p => p.1 == "y")).map Prod.snd)).getD 0 }
  | _ => ⟨0, 0⟩

/-- `node.data || { title: 'Novo Nó' }` read at the `NodeData` interface
(a missing `title` is modelled as `""`, which is JS-falsy in every use;
`conditions`/`options` payloads are never read by the engine). -/
def decodeData (o : Option Json) : NodeData :=
  match o with
  | some (Json.obj fs) =>
    { title := (jsonStr? ((fs.find? (fun p => p.1 == "title")).map Prod.snd)).getD ""
      description := jsonStr? ((fs.find? (fun p => p.1 == "description")).map Prod.snd)
      triggers := jsonStrList? ((fs.find? (fun p => p.1 == "triggers")).map Prod.snd)
      response := jsonStr? ((fs.find? (fun p => p.1 == "response")).map Prod.snd)
      active := match (fs.find? (fun p => p.1 == "active")).map Prod.snd with
        | some (Json.bool b) => some b
        | _ => none }
  | _ => { title := "Novo Nó" }

/-- One element of the imported `nodes` array (`Date.now()` fallback ids
determinized by the element's index). -/
def decodeNode (i : Nat) (j : Json) : FlowNode :=
  { id := jsStrOrElse (jsonStr? (j.getField "id")) ("node-" ++ toString i)
    type := decodeNodeType (j.getField "type")
    position := decodePos (j.getField "position")
    data := decodeData (j.getField "data")
    connections := (jsonStrList? (j.getField "connections")).getD [] }

/-- One element of the imported `connections` array (a missing endpoint
stays `undefined` in JS and is modelled as `""`). -/
def decodeConn (i : Nat) (j : Json) : FlowConnection :=
  { id := jsStrOrElse (jsonStr? (j.getField "id")) ("conn-" ++ toString i)
    source := (jsonStr? (j.getField "source")).getD ""
    target := (jsonStr? (j.getField "target")).getD ""
    sourceHandle := jsonStr? (j.getField "sourceHandle")
    targetHandle := jsonStr? (j.getField "targetHandle") }

/-- `convertCodeToFlow` on a parsed document: the two format guards
(`!flowData.nodes || !Array.isArray(flowData.nodes)`, then the same for
`connections`) throw, which the surrounding `try` turns into `null`;
otherwise the arrays are mapped element-wise. -/
def convertCodeToFlow (flowData : Json) : Option (List FlowNode × List FlowConnection) :=
  if !jsTruthy (flowData.getField "nodes") || !(asArr (flowData.getField "nodes")).isSome then
    none
  else if !jsTruthy (flowData.getField "connections") || !(asArr (flowData.getField "connections")).isSome then
    none
  else
    match asArr (flowData.getField "nodes"), asArr (flowData.getField "connections") with
    | some ns, some cs => some (ns.mapIdx decodeNode, cs.mapIdx decodeConn)
    | _, _ => none

/-- `importFlowCode`'s effect on the graph state: on a successful
conversion the nodes and connections are replaced, otherwise (the
`result === null` branch) only an alert is shown and the graph is left
untouched. -/
def importFlowCode (flowData : Json) (fs : FlowState) : FlowState :=
  match convertCodeToFlow flowData with
  | some (ns, cs) => { fs with nodes := ns, connections := cs }
  | none => fs

/-! ## Node deletion (`deleteFlowNode`) -/

/-- The immediate visual removal step of `deleteFlowNode`: the node and
every connection whose source or target equals it are filtered out, and
the selection is cleared if it pointed at the node. -/
def removeNodeFromFlow (nodeId : String) (fs : FlowState) : FlowState :=
  { fs with
    nodes := fs.nodes.filter (fun n => !(n.id == nodeId))
    connections := fs.connections.filter (fun c => !(c.source == nodeId) && !(c.target == nodeId))
    selectedNode := if fs.selectedNode == some nodeId then none else fs.selectedNode }

/-- Template-id extraction of `deleteFlowNode`: strip a `template-`
occurrence, else take the segment after the last `-`, else the id. -/
def extractTemplateId (nodeId : String) : String :=
  if jsStartsWith nodeId "template-" then replaceFirstStr nodeId "template-" ""
  else if nodeId.data.contains '-' then lastSplitSeg '-' nodeId
  else nodeId

/-- `deleteFlowNode`, parameterized by whether a real project is
selected (`selectedProject && selectedProject !== 'default'`) and by the
outcome of the store DELETE call.  The node is removed from the visual
state first; the store is called afterwards when the extracted id is a
positive number, and on failure only the node record is pushed back. -/
def deleteFlowNode (hasProject storeOk : Bool) (nodeId : String) (fs : FlowState) : FlowState :=
  match fs.nodes.find? (fun n => n.id == nodeId) with
  | none => fs
  | some nodeToDelete =>
    let removed := removeNodeFromFlow nodeId fs
    if hasProject && numericIdPos (extractTemplateId nodeId) && !storeOk then
      { removed with nodes := removed.nodes ++ [nodeToDelete] }
    else removed

/-! ## Observation functions used by the statements -/

/-- The `(triggers, response, active)` tuple of a template. -/
def tplTuple (t : AutoTemplate) : List String × String × Bool :=
  (t.trigger, t.response, t.active)

/-- The `(triggers, response, active)` tuple carried by a node's payload. -/
def mhTuple (n : FlowNode) : List String × String × Bool :=
  (n.data.triggers.getD [], n.data.response.getD "", n.data.active.getD true)

/-- The tuple of a node when it is a `message`/`human` node. -/
def mhEntry (n : FlowNode) : Option (List String × String × Bool) :=
  if isMHNode n then some (mhTuple n) else none

/-- The `(triggers, response, active)` tuples of the `message`/`human`
nodes of a node list, in node order. -/
def mhTuples (ns : List FlowNode) : List (List String × String × Bool) :=
  ns.filterMap mhEntry

/-- The tuple contributed by the welcome template, when one exists. -/
def welcomeTuples (ts : List AutoTemplate) : List (List String × String × Bool) :=
  match welcomeTplOf ts with
  | some w => [tplTuple w]
  | none => []

/-- The retype-invariant signature of a node: id, message-or-human flag,
and the payload fields that feed flattening. -/
def nodeSig (n : FlowNode) : String × Bool × Option (List String) × Option String × Option Bool :=
  (n.id, isMHNode n, n.data.triggers, n.data.response, n.data.active)

/-- The menu-option classification read off a node's trigger payload. -/
def isMenuTrigs (trigs : List String) : Bool :=
  trigs.any (fun s => digitStrs.contains s) &&
    !(trigs.any (fun s => greetingWords.contains (lowerStr s)))

/-- The numeric key read off a trigger list (`parseInt` of the first
digit trigger, `0` when there is none). -/
def trigsKey (trigs : List String) : Nat :=
  match trigs.find? (fun s => digitStrs.contains s) with
  | some s => digitsVal s.data
  | none => 0

/-- The numeric key of a node when it is a menu-option node
(`message`/`human` with a digit trigger and no greeting trigger). -/
def menuNodeKeyOpt (n : FlowNode) : Option Nat :=
  if isMHNode n && isMenuTrigs (n.data.triggers.getD []) then
    some (trigsKey (n.data.triggers.getD []))
  else none

/-- Payload completeness: the fields flattening reads are all present
and the response is non-empty. -/
def wfNode (n : FlowNode) : Prop :=
  (∃ tr, n.data.triggers = some tr) ∧
  (∃ r, n.data.response = some r ∧ r ≠ "") ∧
  (∃ b, n.data.active = some b)

/-- `mhEntry` computed from a node signature. -/
def mhEntryOfSig :
    String × Bool × Option (List String) × Option String × Option Bool →
    Option (List String × String × Bool)
  | (_, mh, tr, r, b) => if mh then some (tr.getD [], r.getD "", b.getD true) else none

/-- `menuNodeKeyOpt` computed from a node signature. -/
def keyOfSig :
    String × Bool × Option (List String) × Option String × Option Bool → Option Nat
  | (_, mh, tr, _, _) =>
    if mh && isMenuTrigs (tr.getD []) then some (trigsKey (tr.getD [])) else none

/-! ## Supporting lemmas -/

/-! Generic helper lemmas -/

theorem updateFirst_append_left {α : Type} (p : α → Bool) (g : α → α) (l₁ l₂ : List α)
    (h : l₁.any p = true) :
    updateFirst p g (l₁ ++ l₂) = updateFirst p g l₁ ++ l₂ := by
  induction l₁ with
  | nil => simp at h
  | cons x xs ih =>
    simp only [List.cons_append, updateFirst]
    by_cases hx : p x
    · simp [hx]
    · simp only [List.any_cons, Bool.or_eq_true] at h
      rcases h with h | h
      · exact absurd h hx
      · simp [hx, ih h]

theorem map_updateFirst {α β : Type} (p : α → Bool) (g : α → α) (f : α → β)
    (l : List α) (h : ∀ x ∈ l, p x = true → f (g x) = f x) :
    (updateFirst p g l).map f = l.map f := by
  induction l with
  | nil => rfl
  | cons x xs ih =>
    simp only [updateFirst]
    by_cases hx : p x
    · simp only [if_pos hx, List.map_cons, h x (List.mem_cons_self x xs) hx]
    · simp only [if_neg hx, List.map_cons]
      rw [ih (fun y hy hpy => h y (List.mem_cons_of_mem x hy) hpy)]

theorem mem_mapIdx_elim {α β : Type} {f : Nat → α → β} {l : List α} {y : β}
    (hy : y ∈ l.mapIdx f) : ∃ i x, x ∈ l ∧ y = f i x := by
  rw [List.mapIdx_eq_enum_map] at hy
  obtain ⟨p, hp, rfl⟩ := List.mem_map.mp hy
  refine ⟨p.1, p.2, ?_, rfl⟩
  rw [← List.enum_map_snd l]
  exact List.mem_map_of_mem _ hp

theorem exists_mem_mapIdx {α β : Type} {f : Nat → α → β} {l : List α} {x : α}
    (hx : x ∈ l) : ∃ i, f i x ∈ l.mapIdx f := by
  rw [← List.enum_map_snd l] at hx
  obtain ⟨p, hp, hpx⟩ := List.mem_map.mp hx
  refine ⟨p.1, ?_⟩
  rw [List.mapIdx_eq_enum_map]
  have : f p.1 x = Function.uncurry f p := by
    cases p
    simp at hpx
    simp [hpx, Function.uncurry]
  rw [this]
  exact List.mem_map_of_mem _ hp

theorem filterMap_mapIdx_const {α β : Type} (f : Nat → α → β) (l : List α)
    (k : α → β) (h : ∀ i x, x ∈ l → f i x = k x) :
    l.mapIdx f = l.map k := by
  rw [List.mapIdx_eq_enum_map]
  have h1 : ∀ p ∈ l.enum, Function.uncurry f p = k p.2 := by
    intro p hp
    have : p.2 ∈ l := by
      rw [← List.enum_map_snd l]; exact List.mem_map_of_mem _ hp
    cases p with
    | mk i x => exact h i x this
  rw [List.map_congr_left h1]
  rw [show (fun p : Nat × α => k p.2) = k ∘ Prod.snd from rfl, ← List.map_map,
    List.enum_map_snd]

/-! Signature lemmas -/

theorem mhEntry_eq_sig (n : FlowNode) : mhEntry n = mhEntryOfSig (nodeSig n) := rfl

theorem menuNodeKeyOpt_eq_sig (n : FlowNode) : menuNodeKeyOpt n = keyOfSig (nodeSig n) := rfl

theorem nodeSig_pushConn (c : String) (x : FlowNode) : nodeSig (pushConn c x) = nodeSig x := rfl

theorem nodeSig_retype_of_mh (x : FlowNode) (h : isMHNode x = true) :
    nodeSig (retypeHuman x) = nodeSig x := by
  simp [nodeSig, retypeHuman, isMHNode] at *
  rcases h with h | h <;> simp [h]

theorem tplNodeId_ne_start (t : AutoTemplate) : tplNodeId t ≠ "start-1" := by
  intro h
  have h1 := congrArg String.length h
  rw [tplNodeId, String.length_append] at h1
  have h2 : "template-".length = 9 := rfl
  have h3 : "start-1".length = 7 := rfl
  omega

theorem wireSpecialNodes_sig (cid : String) (sids : List String) (ns : List FlowNode) :
    (wireSpecialNodes cid sids ns).map nodeSig = ns.map nodeSig := by
  induction sids generalizing ns with
  | nil => rfl
  | cons s ss ih =>
    show (wireSpecialNodes cid ss _).map nodeSig = _
    rw [ih]
    exact map_updateFirst _ _ _ _ (fun x _ _ => rfl)

theorem any_id_updateFirst (q : String → Bool) (p : FlowNode → Bool)
    (g : FlowNode → FlowNode) (l : List FlowNode) (hg : ∀ x, (g x).id = x.id) :
    ((updateFirst p g l).any fun n => q n.id) = (l.any fun n => q n.id) := by
  induction l with
  | nil => rfl
  | cons x xs ih =>
    simp only [updateFirst]
    by_cases hx : p x
    · simp [hx, hg x]
    · simp [hx, ih]

theorem wireSpecialNodes_append (cid : String) (sids : List String)
    (l₁ l₂ : List FlowNode) (h : (l₁.any fun n => n.id == cid) = true) :
    wireSpecialNodes cid sids (l₁ ++ l₂) = wireSpecialNodes cid sids l₁ ++ l₂ := by
  induction sids generalizing l₁ with
  | nil => rfl
  | cons s ss ih =>
    simp only [wireSpecialNodes, List.foldl_cons]
    rw [updateFirst_append_left _ _ _ _ h]
    have h2 : ((updateFirst (fun n => n.id == cid) (pushConn s) l₁).any
        fun n => n.id == cid) = true := by
      rw [any_id_updateFirst (fun i => i == cid) (fun n => n.id == cid)
        (pushConn s) l₁ (fun x => rfl)]
      exact h
    have := ih (updateFirst (fun n => n.id == cid) (pushConn s) l₁) h2
    simpa [wireSpecialNodes] using this

theorem any_id_of_sig_eq {l l' : List FlowNode}
    (h : l.map nodeSig = l'.map nodeSig) (q : String → Bool) :
    (l.any fun n => q n.id) = (l'.any fun n => q n.id) := by
  induction l generalizing l' with
  | nil =>
    cases l' with
    | nil => rfl
    | cons y ys => simp at h
  | cons x xs ih =>
    cases l' with
    | nil => simp at h
    | cons y ys =>
      simp only [List.map_cons, List.cons.injEq] at h
      have hid : x.id = y.id := congrArg Prod.fst h.1
      simp only [List.any_cons, hid, ih h.2]

theorem mem_menuNodes_elim {ts : List AutoTemplate} {y : FlowNode}
    (hy : y ∈ menuNodes ts) : ∃ i m, m ∈ sortedMenuOptions ts ∧ y = mkOptionNode i m := by
  obtain ⟨i, m, hm, hy⟩ := mem_mapIdx_elim hy
  exact ⟨i, m, hm, hy⟩

theorem prefix_mh_or_start {ts : List AutoTemplate} {y : FlowNode}
    (hy : y ∈ headNodes ts ++ menuNodes ts) :
    isMHNode y = true ∨ y.id = "start-1" := by
  rcases List.mem_append.mp hy with hy | hy
  · unfold headNodes at hy
    cases hw : welcomeTplOf ts with
    | some w =>
      rw [hw] at hy
      simp only [List.mem_cons, List.not_mem_nil, or_false] at hy
      rcases hy with rfl | rfl
      · exact Or.inr rfl
      · exact Or.inl rfl
    | none =>
      rw [hw] at hy
      simp only [List.mem_cons, List.not_mem_nil, or_false] at hy
      rw [hy]
      exact Or.inr rfl
  · obtain ⟨i, m, _, rfl⟩ := mem_menuNodes_elim hy
    exact Or.inl rfl

theorem prefix_any_tplNodeId {ts : List AutoTemplate} {t : AutoTemplate}
    (ht : t ∈ sortedMenuOptions ts) :
    ((headNodes ts ++ menuNodes ts).any fun n => n.id == tplNodeId t) = true := by
  obtain ⟨i, hmem⟩ := exists_mem_mapIdx (f := mkOptionNode) ht
  exact List.any_eq_true.mpr ⟨mkOptionNode i t, List.mem_append_right _ hmem, by simp [mkOptionNode]⟩

theorem retype_sig_pres {ts : List AutoTemplate} (h : AutoTemplate)
    (hh : h ∈ sortedMenuOptions ts) (A S : List FlowNode)
    (hA : A.map nodeSig = (headNodes ts ++ menuNodes ts).map nodeSig) :
    (updateFirst (fun n => n.id == tplNodeId h) retypeHuman (A ++ S)).map nodeSig =
      A.map nodeSig ++ S.map nodeSig := by
  have hany : (A.any fun n => n.id == tplNodeId h) = true := by
    rw [any_id_of_sig_eq hA (fun i => i == tplNodeId h)]
    exact prefix_any_tplNodeId hh
  rw [updateFirst_append_left _ _ _ _ hany, List.map_append]
  congr 1
  refine map_updateFirst _ _ _ _ (fun x hx hpx => ?_)
  have hsx : nodeSig x ∈ A.map nodeSig := List.mem_map_of_mem _ hx
  rw [hA] at hsx
  obtain ⟨y, hy, hsy⟩ := List.mem_map.mp hsx
  have hid : y.id = x.id := congrArg Prod.fst hsy
  have hmh : isMHNode y = isMHNode x := congrArg (fun s => s.2.1) hsy
  rcases prefix_mh_or_start hy with hmhy | hsty
  · exact nodeSig_retype_of_mh x (by rw [← hmh]; exact hmhy)
  · exfalso
    have hxid : x.id = tplNodeId h := by simpa using hpx
    have : tplNodeId h = "start-1" := by rw [← hxid, ← hid, hsty]
    exact tplNodeId_ne_start h this

theorem sig_convert (ts : List AutoTemplate) :
    (convertTemplatesToFlow ts).1.map nodeSig = (baseNodes ts ++ [mkEndNode]).map nodeSig := by
  have hleaves : ∀ ns : List FlowNode,
      (connectLeavesNodes ns).map nodeSig = ns.map nodeSig := by
    intro ns
    unfold connectLeavesNodes
    rw [List.map_map]
    refine List.map_congr_left (fun n _ => ?_)
    by_cases h : isLeafNode n <;> simp [h, Function.comp, nodeSig_pushConn]
  have hbase : baseNodes ts = (headNodes ts ++ menuNodes ts) ++ specialNodes ts := by
    simp [baseNodes, List.append_assoc]
  simp only [convertTemplatesToFlow]
  rw [hleaves, List.map_append]
  conv_rhs => rw [List.map_append]
  congr 1
  cases hc : comprarOptionOf ts with
  | none =>
    cases hh : humanTplOf ts with
    | none => simp [applyHumanRetype, hh]
    | some h =>
      simp only [applyHumanRetype, hh]
      rw [hbase]
      rw [retype_sig_pres h (List.mem_of_find?_eq_some hh) _ _ rfl]
      simp [List.map_append]
  | some c =>
    have hcmem : c ∈ sortedMenuOptions ts := List.mem_of_find?_eq_some hc
    have hanyc : ((headNodes ts ++ menuNodes ts).any fun n => n.id == tplNodeId c) = true :=
      prefix_any_tplNodeId hcmem
    have hwire : wireSpecialNodes (tplNodeId c) ((ts.filter isSpecialTpl).map tplNodeId) (baseNodes ts) =
        wireSpecialNodes (tplNodeId c) ((ts.filter isSpecialTpl).map tplNodeId)
          (headNodes ts ++ menuNodes ts) ++ specialNodes ts := by
      rw [hbase]
      exact wireSpecialNodes_append _ _ _ _ hanyc
    cases hh : humanTplOf ts with
    | none =>
      simp only [applyHumanRetype, hh]
      rw [hwire, List.map_append, wireSpecialNodes_sig, hbase]
      simp [List.map_append]
    | some h =>
      simp only [applyHumanRetype, hh]
      rw [hwire]
      rw [retype_sig_pres h (List.mem_of_find?_eq_some hh) _ _ (wireSpecialNodes_sig _ _ _)]
      rw [wireSpecialNodes_sig, hbase]
      simp [List.map_append]


theorem filterMap_mapIdx_some {α β γ : Type} (f : Nat → α → β) (E : β → Option γ)
    (k : α → γ) (l : List α) (h : ∀ i x, x ∈ l → E (f i x) = some (k x)) :
    (l.mapIdx f).filterMap E = l.map k := by
  rw [List.mapIdx_eq_enum_map, List.filterMap_map]
  have h1 : ∀ p ∈ l.enum, (E ∘ Function.uncurry f) p = (some ∘ k ∘ Prod.snd) p := by
    intro p hp
    have hmem : p.2 ∈ l := by
      rw [← List.enum_map_snd l]; exact List.mem_map_of_mem _ hp
    cases p with
    | mk i x => exact h i x hmem
  rw [List.filterMap_congr h1]
  rw [show (some ∘ k ∘ Prod.snd : Nat × α → Option γ) = some ∘ (k ∘ Prod.snd) from rfl]
  rw [List.filterMap_eq_map]
  rw [show (List.map (k ∘ Prod.snd) l.enum) = List.map k (List.map Prod.snd l.enum) from
    (List.map_map k Prod.snd l.enum).symm]
  rw [List.enum_map_snd]

theorem filterMap_mapIdx_none {α β γ : Type} (f : Nat → α → β) (E : β → Option γ)
    (l : List α) (h : ∀ i x, x ∈ l → E (f i x) = none) :
    (l.mapIdx f).filterMap E = [] := by
  rw [List.mapIdx_eq_enum_map, List.filterMap_map]
  rw [List.filterMap_eq_nil_iff]
  intro p hp
  have hmem : p.2 ∈ l := by
    rw [← List.enum_map_snd l]; exact List.mem_map_of_mem _ hp
  cases p with
  | mk i x => exact h i x hmem

theorem mem_sortedMenu {ts : List AutoTemplate} {m : AutoTemplate}
    (hm : m ∈ sortedMenuOptions ts) : m ∈ ts ∧ isMenuTpl m = true := by
  have h1 : m ∈ ts.filter isMenuTpl :=
    ((List.perm_insertionSort menuLe (ts.filter isMenuTpl)).mem_iff).mp hm
  exact ⟨(List.mem_filter.mp h1).1, (List.mem_filter.mp h1).2⟩

theorem filterMap_entry_convert (ts : List AutoTemplate)
    (E : FlowNode → Option γ)
    (ES : String × Bool × Option (List String) × Option String × Option Bool → Option γ)
    (hES : ∀ n, E n = ES (nodeSig n)) :
    (convertTemplatesToFlow ts).1.filterMap E = (baseNodes ts ++ [mkEndNode]).filterMap E := by
  have e1 : ∀ l : List FlowNode, l.filterMap E = (l.map nodeSig).filterMap ES := by
    intro l
    rw [List.filterMap_map]
    exact List.filterMap_congr (fun n _ => hES n)
  rw [e1, e1, sig_convert]

theorem mhTuples_convert (ts : List AutoTemplate) :
    mhTuples (convertTemplatesToFlow ts).1 =
      welcomeTuples ts ++ (sortedMenuOptions ts).map tplTuple := by
  have h1 := filterMap_entry_convert ts mhEntry mhEntryOfSig mhEntry_eq_sig
  unfold mhTuples
  rw [h1]
  unfold baseNodes
  rw [List.filterMap_append, List.filterMap_append, List.filterMap_append]
  have hmenu : (menuNodes ts).filterMap mhEntry = (sortedMenuOptions ts).map tplTuple := by
    unfold menuNodes
    exact filterMap_mapIdx_some _ _ _ _ (fun i x _ => rfl)
  have hspec : (specialNodes ts).filterMap mhEntry = [] := by
    unfold specialNodes
    exact filterMap_mapIdx_none _ _ _ (fun i x _ => rfl)
  have hend : ([mkEndNode] : List FlowNode).filterMap mhEntry = [] := rfl
  have hhead : (headNodes ts).filterMap mhEntry = welcomeTuples ts := by
    unfold headNodes welcomeTuples
    cases hw : welcomeTplOf ts with
    | some w => rfl
    | none => rfl
  rw [hmenu, hspec, hend, hhead, List.append_nil, List.append_nil]

theorem menuKeys_convert (ts : List AutoTemplate) :
    (convertTemplatesToFlow ts).1.filterMap menuNodeKeyOpt =
      (sortedMenuOptions ts).map menuKey := by
  rw [filterMap_entry_convert ts menuNodeKeyOpt keyOfSig menuNodeKeyOpt_eq_sig]
  unfold baseNodes
  rw [List.filterMap_append, List.filterMap_append, List.filterMap_append]
  have hmenu : (menuNodes ts).filterMap menuNodeKeyOpt = (sortedMenuOptions ts).map menuKey := by
    unfold menuNodes
    refine filterMap_mapIdx_some _ _ _ _ (fun i x hx => ?_)
    have hmtpl : isMenuTpl x = true := (mem_sortedMenu hx).2
    have : isMenuTrigs x.trigger = true := hmtpl
    simp only [menuNodeKeyOpt, mkOptionNode, isMHNode]
    simp [this, trigsKey, menuKey]
  have hspec : (specialNodes ts).filterMap menuNodeKeyOpt = [] := by
    unfold specialNodes
    exact filterMap_mapIdx_none _ _ _ (fun i x _ => rfl)
  have hend : ([mkEndNode] : List FlowNode).filterMap menuNodeKeyOpt = [] := rfl
  have hhead : (headNodes ts).filterMap menuNodeKeyOpt = [] := by
    unfold headNodes
    cases hw : welcomeTplOf ts with
    | some w =>
      have hg : isGreetingTpl w = true := List.find?_some hw
      have hng : isMenuTrigs w.trigger = false := by
        have hg' : (w.trigger.any fun s => greetingWords.contains (lowerStr s)) = true := hg
        simp only [isMenuTrigs, hg', Bool.not_true, Bool.and_false]
      simp [List.filterMap_cons, menuNodeKeyOpt, mkStartNode, mkWelcomeNode, isMHNode, hng]
    | none => rfl
  rw [hmenu, hspec, hend, hhead, List.append_nil, List.append_nil, List.nil_append]

theorem menuKeys_sorted (ts : List AutoTemplate) :
    List.Sorted (· ≤ ·) ((sortedMenuOptions ts).map menuKey) := by
  have hs : List.Sorted menuLe (sortedMenuOptions ts) :=
    List.sorted_insertionSort menuLe (ts.filter isMenuTpl)
  exact List.pairwise_map.mpr hs

theorem convert_wf (ts : List AutoTemplate) (hresp : ∀ t ∈ ts, t.response ≠ "") :
    ∀ n ∈ (convertTemplatesToFlow ts).1, isMHNode n = true → wfNode n := by
  intro n hn hmh
  have hsig : nodeSig n ∈ (baseNodes ts ++ [mkEndNode]).map nodeSig := by
    rw [← sig_convert]
    exact List.mem_map_of_mem _ hn
  obtain ⟨y, hy, hsy⟩ := List.mem_map.mp hsig
  have htr : y.data.triggers = n.data.triggers := congrArg (fun s => s.2.2.1) hsy
  have hrsp : y.data.response = n.data.response := congrArg (fun s => s.2.2.2.1) hsy
  have hact : y.data.active = n.data.active := congrArg (fun s => s.2.2.2.2) hsy
  have hmhy : isMHNode y = true := by
    have := congrArg (fun s => s.2.1) hsy
    simp only [nodeSig] at this
    rw [this, hmh]
  have hwfy : wfNode y := by
    rcases List.mem_append.mp hy with hy | hy
    · unfold baseNodes at hy
      rcases List.mem_append.mp hy with hy | hy
      · rcases List.mem_append.mp hy with hy | hy
        · unfold headNodes at hy
          cases hw : welcomeTplOf ts with
          | some w =>
            rw [hw] at hy
            simp only [List.mem_cons, List.not_mem_nil, or_false] at hy
            rcases hy with rfl | rfl
            · simp [isMHNode, mkStartNode] at hmhy
            · have hwts : w ∈ ts := List.mem_of_find?_eq_some hw
              exact ⟨⟨w.trigger, rfl⟩, ⟨w.response, rfl, hresp w hwts⟩, ⟨w.active, rfl⟩⟩
          | none =>
            rw [hw] at hy
            simp only [List.mem_cons, List.not_mem_nil, or_false] at hy
            rw [hy] at hmhy
            simp [isMHNode, mkStartNode] at hmhy
        · obtain ⟨i, m, hm, rfl⟩ := mem_menuNodes_elim hy
          have hmts : m ∈ ts := (mem_sortedMenu hm).1
          exact ⟨⟨m.trigger, rfl⟩, ⟨m.response, rfl, hresp m hmts⟩, ⟨m.active, rfl⟩⟩
      · obtain ⟨i, t, ht, rfl⟩ := mem_mapIdx_elim hy
        simp [isMHNode, mkSpecialNode] at hmhy
    · simp only [List.mem_cons, List.not_mem_nil, or_false] at hy
      rw [hy] at hmhy
      simp [isMHNode, mkEndNode] at hmhy
  obtain ⟨⟨tr, htr'⟩, ⟨r, hr', hr''⟩, ⟨b, hb'⟩⟩ := hwfy
  exact ⟨⟨tr, htr ▸ htr'⟩, ⟨r, hrsp ▸ hr', hr''⟩, ⟨b, hact ▸ hb'⟩⟩

theorem mhTuples_eq_map_filter (ns : List FlowNode) :
    mhTuples ns = (ns.filter isMHNode).map mhTuple := by
  unfold mhTuples
  induction ns with
  | nil => rfl
  | cons x xs ih =>
    by_cases hx : isMHNode x
    · simp [List.filterMap_cons, List.filter_cons, mhEntry, hx, ih]
    · simp [List.filterMap_cons, List.filter_cons, mhEntry, hx, ih]

theorem flatten_tuples (ns : List FlowNode)
    (h : ∀ n ∈ ns, isMHNode n = true → wfNode n) :
    (flattenFlowNodes ns).map tplTuple = mhTuples ns := by
  rw [mhTuples_eq_map_filter]
  unfold flattenFlowNodes
  rw [List.mapIdx_eq_enum_map, List.map_map]
  have h3 : ∀ p ∈ (ns.filter isMHNode).enum,
      (tplTuple ∘ Function.uncurry nodeTemplateOf) p = (mhTuple ∘ Prod.snd) p := by
    intro p hp
    have hmem : p.2 ∈ ns.filter isMHNode := by
      rw [← List.enum_map_snd (ns.filter isMHNode)]
      exact List.mem_map_of_mem _ hp
    have hwf : wfNode p.2 := h p.2 (List.mem_filter.mp hmem).1 (List.mem_filter.mp hmem).2
    obtain ⟨⟨tr, htr⟩, ⟨r, hr, hr'⟩, ⟨b, hb⟩⟩ := hwf
    cases p with
    | mk i x =>
      simp only [Function.comp, Function.uncurry, tplTuple, nodeTemplateOf, mhTuple]
      rw [htr, hr, hb]
      cases b <;> simp [jsArrOr, jsStrOrElse, hr', nodeActiveFlag]
  rw [List.map_congr_left h3]
  rw [show (List.map (mhTuple ∘ Prod.snd) (ns.filter isMHNode).enum) =
    List.map mhTuple (List.map Prod.snd (ns.filter isMHNode).enum) from
    (List.map_map mhTuple Prod.snd _).symm]
  rw [List.enum_map_snd]

theorem tplTuple_trigger_eq {a b : AutoTemplate} (h : tplTuple a = tplTuple b) :
    a.trigger = b.trigger := congrArg Prod.fst h

theorem isGreetingTpl_congr {a b : AutoTemplate} (h : a.trigger = b.trigger) :
    isGreetingTpl a = isGreetingTpl b := by simp [isGreetingTpl, h]

theorem isMenuTpl_congr {a b : AutoTemplate} (h : a.trigger = b.trigger) :
    isMenuTpl a = isMenuTpl b := by simp [isMenuTpl, hasDigitTrigger, isGreetingTpl, h]

theorem greeting_not_menu {t : AutoTemplate} (h : isGreetingTpl t = true) :
    isMenuTpl t = false := by simp [isMenuTpl, h]

theorem menuTpl_not_greeting {t : AutoTemplate} (h : isMenuTpl t = true) :
    isGreetingTpl t = false := by
  simp only [isMenuTpl, Bool.and_eq_true, Bool.not_eq_true'] at h
  exact h.2

theorem map_eq_map_rel {α β : Type} {f : α → β} {l l' : List α}
    (h : l.map f = l'.map f) : List.Forall₂ (fun a b => f a = f b) l l' := by
  induction l generalizing l' with
  | nil =>
    cases l' with
    | nil => exact List.Forall₂.nil
    | cons y ys => simp at h
  | cons x xs ih =>
    cases l' with
    | nil => simp at h
    | cons y ys =>
      simp only [List.map_cons, List.cons.injEq] at h
      exact List.Forall₂.cons h.1 (ih h.2)

theorem forall₂_mem_left {α β : Type} {R : α → β → Prop} {l : List α} {l' : List β}
    (h : List.Forall₂ R l l') : ∀ a ∈ l, ∃ b ∈ l', R a b := by
  induction h with
  | nil => intro a ha; simp at ha
  | cons hr _ ih =>
    intro a ha
    rcases List.mem_cons.mp ha with rfl | ha
    · exact ⟨_, List.mem_cons_self _ _, hr⟩
    · obtain ⟨b, hb, hrb⟩ := ih a ha
      exact ⟨b, List.mem_cons_of_mem _ hb, hrb⟩

theorem flat_all_menu {ts rest : List AutoTemplate}
    (h : rest.map tplTuple = (sortedMenuOptions ts).map tplTuple) :
    ∀ r ∈ rest, isMenuTpl r = true := by
  intro r hr
  obtain ⟨m, hm, hrm⟩ := forall₂_mem_left (map_eq_map_rel h) r hr
  rw [isMenuTpl_congr (tplTuple_trigger_eq hrm)]
  exact (mem_sortedMenu hm).2

theorem welcomeTuples_eq_some {ts : List AutoTemplate} {w : AutoTemplate}
    (h : welcomeTplOf ts = some w) : welcomeTuples ts = [tplTuple w] := by
  unfold welcomeTuples
  rw [h]

theorem welcomeTuples_eq_none {ts : List AutoTemplate}
    (h : welcomeTplOf ts = none) : welcomeTuples ts = [] := by
  unfold welcomeTuples
  rw [h]

/-- C2 (amended): for every template list whose templates all have a
non-empty response, flattening the freshly synthesized graph and
re-synthesizing from the flattened output preserves the set of
`(triggers, response, active)` tuples of the `message`/`human` nodes.
(As stated the claim fails: flattening replaces an empty node response
by the node title, see the counterexample.) -/
theorem flatten_resynth_preserves_tuples (ts : List AutoTemplate) (hresp : ∀ t ∈ ts, t.response ≠ "")
    (tup : List String × String × Bool) :
    tup ∈ mhTuples (convertTemplatesToFlow (flattenFlowNodes (convertTemplatesToFlow ts).1)).1 ↔
    tup ∈ mhTuples (convertTemplatesToFlow ts).1 := by
  have h1 : mhTuples (convertTemplatesToFlow ts).1 =
      welcomeTuples ts ++ (sortedMenuOptions ts).map tplTuple := mhTuples_convert ts
  have h2 : mhTuples (convertTemplatesToFlow (flattenFlowNodes (convertTemplatesToFlow ts).1)).1 =
      welcomeTuples (flattenFlowNodes (convertTemplatesToFlow ts).1) ++
        (sortedMenuOptions (flattenFlowNodes (convertTemplatesToFlow ts).1)).map tplTuple :=
    mhTuples_convert _
  have h3 : (flattenFlowNodes (convertTemplatesToFlow ts).1).map tplTuple =
      welcomeTuples ts ++ (sortedMenuOptions ts).map tplTuple := by
    rw [flatten_tuples _ (convert_wf ts hresp), h1]
  rw [h1, h2]
  refine List.Perm.mem_iff ?_
  cases hw : welcomeTplOf ts with
  | some w =>
    rw [welcomeTuples_eq_some hw] at h3 ⊢
    cases hts' : flattenFlowNodes (convertTemplatesToFlow ts).1 with
    | nil => rw [hts'] at h3; simp at h3
    | cons w' rest =>
      rw [hts'] at h3
      simp only [List.map_cons, List.singleton_append, List.cons.injEq] at h3
      obtain ⟨hww', hrest⟩ := h3
      have hgw' : isGreetingTpl w' = true := by
        rw [isGreetingTpl_congr (tplTuple_trigger_eq hww')]
        exact List.find?_some hw
      have hwelc' : welcomeTplOf (w' :: rest) = some w' := by
        unfold welcomeTplOf
        rw [List.find?_cons, hgw']
      have hmenuw' : isMenuTpl w' = false := greeting_not_menu hgw'
      have hfilter : (w' :: rest).filter isMenuTpl = rest := by
        rw [List.filter_cons, if_neg (by simp [hmenuw'])]
        exact List.filter_eq_self.mpr (flat_all_menu hrest)
      have hsorted' : sortedMenuOptions (w' :: rest) = List.insertionSort menuLe rest := by
        unfold sortedMenuOptions
        rw [hfilter]
      rw [welcomeTuples_eq_some hwelc', hsorted']
      have hperm : List.Perm ((List.insertionSort menuLe rest).map tplTuple)
          ((sortedMenuOptions ts).map tplTuple) := by
        have hp := (List.perm_insertionSort menuLe rest).map tplTuple
        rw [hrest] at hp
        exact hp
      rw [show ([tplTuple w'] : List (List String × String × Bool)) = [tplTuple w] from by rw [hww']]
      exact List.Perm.append_left _ hperm
  | none =>
    rw [welcomeTuples_eq_none hw, List.nil_append] at h3 ⊢
    have hwelc' : welcomeTplOf (flattenFlowNodes (convertTemplatesToFlow ts).1) = none := by
      unfold welcomeTplOf
      refine List.find?_eq_none.mpr (fun r hr => ?_)
      have hmr : isMenuTpl r = true := flat_all_menu h3 r hr
      simp [menuTpl_not_greeting hmr]
    have hfilter : (flattenFlowNodes (convertTemplatesToFlow ts).1).filter isMenuTpl =
        flattenFlowNodes (convertTemplatesToFlow ts).1 :=
      List.filter_eq_self.mpr (flat_all_menu h3)
    rw [welcomeTuples_eq_none hwelc', List.nil_append]
    unfold sortedMenuOptions
    rw [hfilter]
    have hp := (List.perm_insertionSort menuLe
      (flattenFlowNodes (convertTemplatesToFlow ts).1)).map tplTuple
    rw [h3] at hp
    exact hp

theorem isMHNode_iff (n : FlowNode) :
    isMHNode n = true ↔ (n.type = NodeType.message ∨ n.type = NodeType.human) := by
  simp [isMHNode]

theorem mem_sortedMenu_of (ts : List AutoTemplate) (m : AutoTemplate)
    (hm : m ∈ ts) (hmenu : isMenuTpl m = true) : m ∈ sortedMenuOptions ts := by
  unfold sortedMenuOptions
  exact (List.perm_insertionSort menuLe _).mem_iff.mpr (List.mem_filter.mpr ⟨hm, hmenu⟩)

theorem menu_node_exists (ts : List AutoTemplate) (m : AutoTemplate)
    (hm : m ∈ ts) (hmenu : isMenuTpl m = true) :
    ∃ n ∈ (convertTemplatesToFlow ts).1,
      n.id = tplNodeId m ∧ (n.type = NodeType.message ∨ n.type = NodeType.human) ∧
      n.data.triggers = some m.trigger ∧ n.data.response = some m.response ∧
      n.data.active = some m.active := by
  have hms : m ∈ sortedMenuOptions ts := mem_sortedMenu_of ts m hm hmenu
  obtain ⟨i, hmem⟩ := exists_mem_mapIdx (f := mkOptionNode) hms
  have hsig : nodeSig (mkOptionNode i m) ∈ ((convertTemplatesToFlow ts).1).map nodeSig := by
    rw [sig_convert]
    refine List.mem_map_of_mem _ ?_
    refine List.mem_append_left _ ?_
    unfold baseNodes
    exact List.mem_append_left _ (List.mem_append_right _ hmem)
  obtain ⟨n, hn, hsn⟩ := List.mem_map.mp hsig
  have hid : n.id = tplNodeId m := congrArg Prod.fst hsn
  have hmh : isMHNode n = true := congrArg (fun s => s.2.1) hsn
  exact ⟨n, hn, hid, (isMHNode_iff n).mp hmh,
    congrArg (fun s => s.2.2.1) hsn,
    congrArg (fun s => s.2.2.2.1) hsn,
    congrArg (fun s => s.2.2.2.2) hsn⟩

theorem welcome_conn_exists (ts : List AutoTemplate) (w m : AutoTemplate)
    (hw : welcomeTplOf ts = some w) (hm : m ∈ ts) (hmenu : isMenuTpl m = true) :
    mkConn (tplNodeId w) (tplNodeId m) ∈ (convertTemplatesToFlow ts).2 := by
  have hms : m ∈ sortedMenuOptions ts := mem_sortedMenu_of ts m hm hmenu
  have hbase : mkConn (tplNodeId w) (tplNodeId m) ∈ baseConns ts := by
    unfold baseConns
    rw [hw]
    exact List.mem_cons_of_mem _ (List.mem_map_of_mem _ hms)
  simp only [convertTemplatesToFlow]
  refine List.mem_append_left _ ?_
  cases hc : comprarOptionOf ts with
  | none => exact hbase
  | some c => exact List.mem_append_left _ hbase

theorem no_start_conn (ts : List AutoTemplate) (hw : welcomeTplOf ts = none) :
    ∀ c ∈ (convertTemplatesToFlow ts).2, c.source ≠ "start-1" := by
  intro c hc
  simp only [convertTemplatesToFlow] at hc
  rcases List.mem_append.mp hc with hc | hc
  · cases hc2 : comprarOptionOf ts with
    | none =>
      rw [hc2] at hc
      unfold baseConns at hc
      rw [hw] at hc
      simp at hc
    | some cc =>
      rw [hc2] at hc
      rcases List.mem_append.mp hc with hc | hc
      · unfold baseConns at hc
        rw [hw] at hc
        simp at hc
      · obtain ⟨sid, _, rfl⟩ := List.mem_map.mp hc
        exact tplNodeId_ne_start cc
  · obtain ⟨n, _, hn2⟩ := List.mem_filterMap.mp hc
    by_cases hl : isLeafNode n
    · rw [if_pos hl] at hn2
      obtain rfl := Option.some.inj hn2
      have := hl
      simp only [isLeafNode, Bool.and_eq_true, bne_iff_ne] at this
      exact this.1.2
    · rw [if_neg hl] at hn2
      exact Option.noConfusion hn2

/-! ## Claim theorems -/

/-- C7: removing a node removes every connection whose source or target
equals that id; afterwards no remaining connection references the
removed id. -/
theorem removeNode_no_dangling (fs : FlowState) (nodeId : String) :
    ∀ c ∈ (removeNodeFromFlow nodeId fs).connections, c.source ≠ nodeId ∧ c.target ≠ nodeId := by
  intro c hc
  simp only [removeNodeFromFlow, List.mem_filter, Bool.and_eq_true, Bool.not_eq_true',
    beq_eq_false_iff_ne] at hc
  exact hc.2

/-- Witness for C7 at a concrete graph and connection. -/
theorem removeNode_no_dangling_witness :
    ({ id := "a-b", source := "a", target := "b" } : FlowConnection).source ≠ "c" ∧
    ({ id := "a-b", source := "a", target := "b" } : FlowConnection).target ≠ "c" :=
  removeNode_no_dangling
    { nodes := [mkStartNode []], connections := [{ id := "a-b", source := "a", target := "b" }] }
    "c" { id := "a-b", source := "a", target := "b" } (by decide)

/-- C10: submitting empty or all-whitespace input, or submitting while
no simulation is active, is a complete no-op: the simulation state
(transcript, position, awaiting-input flag) is unchanged. -/
theorem sendUserMessage_noop (templates : List AutoTemplate) (input : String)
    (st : SimulationState) (h : jsTrim input = "" ∨ st.isActive = false) :
    sendUserMessage templates input st = st := by
  rcases h with h | h <;> simp [sendUserMessage, h]

/-- Witness for C10 on whitespace input in an active simulation. -/
theorem sendUserMessage_noop_witness :
    sendUserMessage [{ id := "1", trigger := ["oi"], response := "x", active := true }] "   "
      { isActive := true, currentNodeId := none, chatHistory := [], awaitingInput := true } =
      { isActive := true, currentNodeId := none, chatHistory := [], awaitingInput := true } :=
  sendUserMessage_noop _ _ _ (Or.inl (by decide))

/-- C8 (amended): submitting while the simulation is inactive — in
particular before `start()` — is silently ignored (state unchanged);
no `InvalidState` error exists in the code, and the guard checks only
`isActive`, not the awaiting-input flag. -/
theorem sendUserMessage_inactive_noop (templates : List AutoTemplate) (input : String)
    (st : SimulationState) (h : st.isActive = false) :
    sendUserMessage templates input st = st := by
  simp [sendUserMessage, h]

/-- Witness for C8 before any `start()`. -/
theorem sendUserMessage_inactive_noop_witness :
    sendUserMessage [] "oi"
      { isActive := false, currentNodeId := none, chatHistory := [], awaitingInput := false } =
      { isActive := false, currentNodeId := none, chatHistory := [], awaitingInput := false } :=
  sendUserMessage_inactive_noop _ _ _ rfl

/-- Counterexample for C8 as stated: in an active simulation that is
*not* awaiting input (the `Evaluating` phase) a submit is processed
normally instead of failing. -/
theorem sendUserMessage_not_awaiting_processed :
    sendUserMessage [{ id := "1", trigger := ["oi"], response := "Hi {name}", active := true }] "oi"
      { isActive := true, currentNodeId := none, chatHistory := [], awaitingInput := false } ≠
      { isActive := true, currentNodeId := none, chatHistory := [], awaitingInput := false } := by
  decide

/-- C9: when no active template matches the submitted text, the
simulator appends the user entry and the fixed fallback entry, does not
crash, and returns to awaiting input with the position unchanged. -/
theorem sendUserMessage_fallback (templates : List AutoTemplate) (input : String)
    (st : SimulationState) (hact : st.isActive = true) (hin : jsTrim input ≠ "")
    (hnone : ∀ t ∈ templates, matchesTemplate input t = false) :
    sendUserMessage templates input st =
      { st with
        chatHistory := st.chatHistory ++
          [{ type := MsgType.user, content := jsTrim input },
           { type := MsgType.bot, content := fallbackReply }]
        awaitingInput := true } := by
  have hfind : templates.find? (matchesTemplate input) = none :=
    List.find?_eq_none.mpr (fun t ht => by simp [hnone t ht])
  simp [sendUserMessage, hact, hin, hfind]

/-- Witness for C9: `submit("xyz")` against a template triggered by `oi`. -/
theorem sendUserMessage_fallback_witness :
    sendUserMessage [{ id := "1", trigger := ["oi"], response := "resp", active := true }] "xyz"
      { isActive := true, currentNodeId := some "start-1",
        chatHistory := [{ type := MsgType.bot, content := simGreeting }], awaitingInput := true } =
      { isActive := true, currentNodeId := some "start-1",
        chatHistory := [{ type := MsgType.bot, content := simGreeting },
                        { type := MsgType.user, content := "xyz" },
                        { type := MsgType.bot, content := fallbackReply }]
        awaitingInput := true } :=
  (sendUserMessage_fallback _ _ _ rfl (by decide) (by decide)).trans (by decide)

/-- C1: the simulator replies with the first active template (in list
order) whose lowercased trigger occurs in the lowercased user text; the
bot entry carries the response with every `{name}` replaced by the fixed
simulated identity plus the template's id, and the simulation awaits
input again. -/
theorem sendUserMessage_match (templates pre post : List AutoTemplate) (t : AutoTemplate)
    (input : String) (st : SimulationState)
    (hsplit : templates = pre ++ t :: post)
    (hpre : ∀ u ∈ pre, matchesTemplate input u = false)
    (ht : matchesTemplate input t = true)
    (hact : st.isActive = true) (hin : jsTrim input ≠ "") :
    sendUserMessage templates input st =
      { st with
        chatHistory := st.chatHistory ++
          [{ type := MsgType.user, content := jsTrim input },
           { type := MsgType.bot, content := replaceAllStr t.response "{name}" "Usuário",
             nodeId := some t.id }]
        awaitingInput := true
        currentNodeId := some ("template-" ++ t.id) } := by
  have hfindpre : pre.find? (matchesTemplate input) = none :=
    List.find?_eq_none.mpr (fun u hu => by simp [hpre u hu])
  have hfind : templates.find? (matchesTemplate input) = some t := by
    rw [hsplit, List.find?_append, hfindpre, Option.none_or, List.find?_cons, ht]
  simp [sendUserMessage, hact, hin, hfind]

/-- Witness for C1: `start()` then `submit("Oi")` against
`[{triggers:["oi"], response:"Hi {name}"}]` yields the bot entry
`"Hi Usuário"` and leaves the simulation awaiting input. -/
theorem sendUserMessage_match_witness :
    startChatSimulation [mkStartNode []] =
      some { isActive := true, currentNodeId := some "start-1",
             chatHistory := [{ type := MsgType.bot, content := simGreeting }],
             awaitingInput := true } ∧
    sendUserMessage [{ id := "1", trigger := ["oi"], response := "Hi {name}", active := true }] "Oi"
      { isActive := true, currentNodeId := some "start-1",
        chatHistory := [{ type := MsgType.bot, content := simGreeting }], awaitingInput := true } =
      { isActive := true, currentNodeId := some "template-1",
        chatHistory := [{ type := MsgType.bot, content := simGreeting },
                        { type := MsgType.user, content := "Oi" },
                        { type := MsgType.bot, content := "Hi Usuário", nodeId := some "1" }],
        awaitingInput := true } :=
  ⟨by decide,
   (sendUserMessage_match _ [] _ { id := "1", trigger := ["oi"], response := "Hi {name}", active := true }
      "Oi" _ rfl (by simp) (by decide) rfl (by decide)).trans (by decide)⟩

/-- C5: an imported flow document whose `nodes` or `connections`
property is missing or not an array is rejected (`null` result,
surfaced as the invalid-format error), and the current in-memory graph
is left unchanged. -/
theorem convertCodeToFlow_invalid (doc : Json)
    (h : (asArr (doc.getField "nodes")).isSome = false ∨
         (asArr (doc.getField "connections")).isSome = false) :
    convertCodeToFlow doc = none ∧ ∀ fs : FlowState, importFlowCode doc fs = fs := by
  have hnone : convertCodeToFlow doc = none := by
    unfold convertCodeToFlow
    rcases h with h | h
    · simp [h]
    · split
      · rfl
      · simp [h]
  exact ⟨hnone, fun fs => by simp [importFlowCode, hnone]⟩

/-- Witness for C5 at `{"nodes": "not-an-array", "connections": []}`. -/
theorem convertCodeToFlow_invalid_witness :
    convertCodeToFlow (Json.obj [("nodes", Json.str "not-an-array"), ("connections", Json.arr [])]) = none ∧
    importFlowCode (Json.obj [("nodes", Json.str "not-an-array"), ("connections", Json.arr [])])
      { nodes := [mkStartNode []], connections := [mkConn "a" "b"] } =
      { nodes := [mkStartNode []], connections := [mkConn "a" "b"] } :=
  ⟨(convertCodeToFlow_invalid _ (Or.inl (by rfl))).1,
   (convertCodeToFlow_invalid _ (Or.inl (by rfl))).2 _⟩

/-- C4 (amended): per-node deletion removes the node and its incident
connections from the graph immediately and only then calls the store;
when the store call fails the node record is pushed back, but the
incident connections are not restored — they remain filtered out.
(As stated the claim fails: the prior state is not fully restored, see
the counterexample.) -/
theorem deleteFlowNode_rollback (fs : FlowState) (nodeId : String) (n : FlowNode)
    (hfind : fs.nodes.find? (fun m => m.id == nodeId) = some n)
    (hnum : numericIdPos (extractTemplateId nodeId) = true) :
    n ∈ (deleteFlowNode true false nodeId fs).nodes ∧
    (deleteFlowNode true false nodeId fs).connections =
      fs.connections.filter (fun c => !(c.source == nodeId) && !(c.target == nodeId)) := by
  unfold deleteFlowNode
  rw [hfind]
  simp [hnum, removeNodeFromFlow]

/-- Witness for C4 at a concrete two-node graph with a failing store call. -/
theorem deleteFlowNode_rollback_witness :
    ({ id := "template-7", type := NodeType.message, position := ⟨0, 0⟩,
       data := { title := "T", triggers := some ["x"], response := some "r", active := some true },
       connections := [] } : FlowNode) ∈
      (deleteFlowNode true false "template-7"
        { nodes := [mkStartNode ["template-7"],
                    { id := "template-7", type := NodeType.message, position := ⟨0, 0⟩,
                      data := { title := "T", triggers := some ["x"], response := some "r",
                                active := some true },
                      connections := [] }],
          connections := [mkConn "start-1" "template-7"] }).nodes ∧
    (deleteFlowNode true false "template-7"
        { nodes := [mkStartNode ["template-7"],
                    { id := "template-7", type := NodeType.message, position := ⟨0, 0⟩,
                      data := { title := "T", triggers := some ["x"], response := some "r",
                                active := some true },
                      connections := [] }],
          connections := [mkConn "start-1" "template-7"] }).connections =
      [mkConn "start-1" "template-7"].filter
        (fun c => !(c.source == "template-7") && !(c.target == "template-7")) :=
  deleteFlowNode_rollback _ "template-7" _ (by decide) (by decide)

/-- Counterexample for C4 as stated: after a failed store delete the
prior in-memory state is not restored — the connection incident to the
restored node stays removed. -/
theorem deleteFlowNode_partial_after_failure :
    deleteFlowNode true false "template-7"
      { nodes := [mkStartNode ["template-7"],
                  { id := "template-7", type := NodeType.message, position := ⟨0, 0⟩,
                    data := { title := "T", triggers := some ["x"], response := some "r",
                              active := some true },
                    connections := [] }],
        connections := [mkConn "start-1" "template-7"] } ≠
      { nodes := [mkStartNode ["template-7"],
                  { id := "template-7", type := NodeType.message, position := ⟨0, 0⟩,
                    data := { title := "T", triggers := some ["x"], response := some "r",
                              active := some true },
                    connections := [] }],
        connections := [mkConn "start-1" "template-7"] } := by
  decide

/-- Counterexample for C6 as stated: a node whose triggers overlap a
persisted template but whose response is empty is updated with its
*title*, not with the node's current (empty) response. -/
theorem reconcileNode_title_fallback :
    reconcileNode [{ id := "9", trigger := ["x"], response := "R", active := true }] 0
      { id := "n1", type := NodeType.message, position := ⟨0, 0⟩,
        data := { title := "T", triggers := some ["x"], response := some "", active := some true },
        connections := [] } =
      some (StoreOp.update { id := "9", trigger := ["x"], response := "T", active := true }) ∧
    ({ id := "n1", type := NodeType.message, position := ⟨0, 0⟩,
       data := { title := "T", triggers := some ["x"], response := some "", active := some true },
       connections := [] } : FlowNode).data.response = some "" ∧
    ("T" : String) ≠ "" := by
  refine ⟨by decide, rfl, by decide⟩

/-- C6 (amended): during reconciliation, a `message`/`human` node whose
stripped id or trigger set matches a persisted template issues an update
of the first such template — carrying the node's triggers, its non-empty
response and its active-unless-explicitly-false flag — and never a
create. -/
theorem reconcileNode_update (existing : List AutoTemplate) (n : FlowNode) (i : Nat)
    (trigs : List String) (r : String)
    (hmh : isMHNode n = true)
    (htr : n.data.triggers = some trigs)
    (hr : n.data.response = some r) (hr' : r ≠ "")
    (hmatch : ∃ t ∈ existing, t.id = nodeIdStripped n.id ∨ ∃ tr ∈ trigs, tr ∈ t.trigger) :
    ∃ t₀ ∈ existing,
      findExistingTemplate existing n = some t₀ ∧
      reconcileNode existing i n =
        some (StoreOp.update
          { id := t₀.id, trigger := trigs, response := r,
            active := nodeActiveFlag n.data.active }) ∧
      ∀ c : AutoTemplate, reconcileNode existing i n ≠ some (StoreOp.create c) := by
  have hsome : (existing.find? (fun t =>
      t.id == nodeIdStripped n.id ||
      (match n.data.triggers with
       | some trigs => trigs.any (fun tr => t.trigger.contains tr)
       | none => false))).isSome := by
    rw [List.find?_isSome]
    obtain ⟨t, htmem, ht⟩ := hmatch
    refine ⟨t, htmem, ?_⟩
    rcases ht with ht | ⟨tr, htr1, htr2⟩
    · simp [ht]
    · rw [htr]
      simp only [Bool.or_eq_true, List.any_eq_true]
      exact Or.inr ⟨tr, htr1, by simp [htr2]⟩
  obtain ⟨t₀, hfind⟩ := Option.isSome_iff_exists.mp hsome
  have ht₀mem : t₀ ∈ existing := List.mem_of_find?_eq_some hfind
  have hfe : findExistingTemplate existing n = some t₀ := hfind
  refine ⟨t₀, ht₀mem, hfe, ?_, ?_⟩
  · unfold reconcileNode
    rw [if_pos hmh, hfe]
    simp [jsArrOr, htr, jsStrOrElse, hr, hr']
  · intro c
    unfold reconcileNode
    rw [if_pos hmh, hfe]
    simp

/-- Witness for C6: a node overlapping a persisted template on trigger
`x` issues an update, never a create. -/
theorem reconcileNode_update_witness :
    ∃ t₀ ∈ [({ id := "9", trigger := ["x"], response := "R", active := true } : AutoTemplate)],
      findExistingTemplate [{ id := "9", trigger := ["x"], response := "R", active := true }]
        { id := "n1", type := NodeType.message, position := ⟨0, 0⟩,
          data := { title := "T", triggers := some ["x", "y"], response := some "New",
                    active := some false },
          connections := [] } = some t₀ ∧
      reconcileNode [{ id := "9", trigger := ["x"], response := "R", active := true }] 0
        { id := "n1", type := NodeType.message, position := ⟨0, 0⟩,
          data := { title := "T", triggers := some ["x", "y"], response := some "New",
                    active := some false },
          connections := [] } =
        some (StoreOp.update
          { id := t₀.id, trigger := ["x", "y"], response := "New",
            active := nodeActiveFlag (some false) }) ∧
      ∀ c : AutoTemplate,
        reconcileNode [{ id := "9", trigger := ["x"], response := "R", active := true }] 0
          { id := "n1", type := NodeType.message, position := ⟨0, 0⟩,
            data := { title := "T", triggers := some ["x", "y"], response := some "New",
                      active := some false },
            connections := [] } ≠ some (StoreOp.create c) :=
  reconcileNode_update _ _ 0 ["x", "y"] "New" rfl rfl rfl (by decide)
    ⟨{ id := "9", trigger := ["x"], response := "R", active := true }, by decide,
     Or.inr ⟨"x", by decide, by decide⟩⟩

/-- Witness for C2 at a concrete template list with non-empty responses. -/
theorem flatten_resynth_preserves_tuples_witness :
    ((["oi"], "Hi {name}", true) ∈ mhTuples (convertTemplatesToFlow (flattenFlowNodes
        (convertTemplatesToFlow
          [{ id := "1", trigger := ["oi"], response := "Hi {name}", active := true },
           { id := "4", trigger := ["1", "comprar"], response := "one", active := false }]).1)).1 ↔
      (["oi"], "Hi {name}", true) ∈ mhTuples (convertTemplatesToFlow
        [{ id := "1", trigger := ["oi"], response := "Hi {name}", active := true },
         { id := "4", trigger := ["1", "comprar"], response := "one", active := false }]).1) ∧
    (["oi"], "Hi {name}", true) ∈ mhTuples (convertTemplatesToFlow
      [{ id := "1", trigger := ["oi"], response := "Hi {name}", active := true },
       { id := "4", trigger := ["1", "comprar"], response := "one", active := false }]).1 :=
  ⟨flatten_resynth_preserves_tuples _ (by decide) (["oi"], "Hi {name}", true), by decide⟩

/-- Counterexample for C2 as stated: a menu template with empty response
synthesizes a node whose tuple is lost by the round trip (its flattened
response falls back to the node title). -/
theorem flatten_resynth_tuples_cex :
    (["1"], "", true) ∈ mhTuples (convertTemplatesToFlow
      [{ id := "9", trigger := ["1"], response := "", active := true }]).1 ∧
    (["1"], "", true) ∉ mhTuples (convertTemplatesToFlow (flattenFlowNodes
      (convertTemplatesToFlow
        [{ id := "9", trigger := ["1"], response := "", active := true }]).1)).1 := by
  decide

/-- C3 (amended): every menu-classified template (digit trigger, no
greeting trigger) yields a graph node with its id, payload and a
`message` or `human` type; the menu nodes' numeric keys appear in
ascending order; when a welcome node exists each menu node receives a
connection from it; when no welcome node exists no connection has the
start node as source (in particular the menu nodes are not connected
from start, and the operator option is retyped to `human` rather than
staying `message` — see the counterexample). -/
theorem synth_menu_options_spec (ts : List AutoTemplate) :
    (∀ m ∈ ts, isMenuTpl m = true →
      ∃ n ∈ (convertTemplatesToFlow ts).1,
        n.id = tplNodeId m ∧ (n.type = NodeType.message ∨ n.type = NodeType.human) ∧
        n.data.triggers = some m.trigger ∧ n.data.response = some m.response ∧
        n.data.active = some m.active) ∧
    List.Sorted (· ≤ ·) ((convertTemplatesToFlow ts).1.filterMap menuNodeKeyOpt) ∧
    (∀ w, welcomeTplOf ts = some w → ∀ m ∈ ts, isMenuTpl m = true →
      mkConn (tplNodeId w) (tplNodeId m) ∈ (convertTemplatesToFlow ts).2) ∧
    (welcomeTplOf ts = none → ∀ c ∈ (convertTemplatesToFlow ts).2, c.source ≠ "start-1") :=
  ⟨fun m hm hmenu => menu_node_exists ts m hm hmenu,
   by rw [menuKeys_convert]; exact menuKeys_sorted ts,
   fun w hw m hm hmenu => welcome_conn_exists ts w m hw hm hmenu,
   fun hw => no_start_conn ts hw⟩

/-- Witness for C3 at a concrete list with a welcome and a menu option. -/
theorem synth_menu_options_spec_witness :
    mkConn "template-1" "template-5" ∈ (convertTemplatesToFlow
      [{ id := "1", trigger := ["oi"], response := "w", active := true },
       { id := "5", trigger := ["2"], response := "two", active := true }]).2 ∧
    (∃ n ∈ (convertTemplatesToFlow
        [{ id := "1", trigger := ["oi"], response := "w", active := true },
         { id := "5", trigger := ["2"], response := "two", active := true }]).1,
      n.id = tplNodeId { id := "5", trigger := ["2"], response := "two", active := true } ∧
      (n.type = NodeType.message ∨ n.type = NodeType.human) ∧
      n.data.triggers = some ["2"] ∧ n.data.response = some "two" ∧
      n.data.active = some true) :=
  ⟨(synth_menu_options_spec _).2.2.1
      { id := "1", trigger := ["oi"], response := "w", active := true } (by decide)
      { id := "5", trigger := ["2"], response := "two", active := true } (by decide) (by decide),
   (synth_menu_options_spec _).1
      { id := "5", trigger := ["2"], response := "two", active := true } (by decide) (by decide)⟩

/-- Counterexample for C3 as stated: with a single menu template whose
trigger is `3` and no welcome template, the option node receives no
connection from the start node and is a `human` node, not a `message`
node. -/
theorem synth_menu_options_cex :
    (¬ ∃ c ∈ (convertTemplatesToFlow
        [{ id := "3", trigger := ["3"], response := "r", active := true }]).2,
      c.source = "start-1" ∧ c.target = "template-3") ∧
    (¬ ∃ n ∈ (convertTemplatesToFlow
        [{ id := "3", trigger := ["3"], response := "r", active := true }]).1,
      n.id = "template-3" ∧ n.type = NodeType.message) ∧
    (∃ n ∈ (convertTemplatesToFlow
        [{ id := "3", trigger := ["3"], response := "r", active := true }]).1,
      n.id = "template-3" ∧ n.type = NodeType.human) := by
  decide
